import Mathlib

/-!
Shallow embedding of the agentbond warranty-verification core
(policy evaluation engine, claim verifier, reputation scorer, and the
policy/claim endpoints) together with theorems settling the spec claims.

Modelling conventions:
* Python numbers (int and float) are modelled as rationals (`Rat`);
  binary floating-point rounding is outside the model.
* Python dicts appearing in transcripts are modelled as association
  lists with string keys (`List (String × PyVal)`); `dict.get` is
  first-match lookup.
* Python `set` construction is modelled as first-occurrence
  deduplication (`pySet`); the CPython hash-dependent iteration order is
  replaced by first-occurrence order, which only affects the order of
  elements inside evidence lists, never membership.
* Wall-clock reads (`time.time()`, `datetime.utcnow()`) are passed in
  as an explicit `now : Rat` argument (seconds).
* Database rows become plain structures, the database becomes lists of
  rows, and SQLAlchemy queries become list traversals; `autoincrement`
  primary keys become max-id-plus-one.
* The optional on-chain settlement calls and webhook notifications are
  best-effort side channels guarded by configuration; they are outside
  the model (they never change the rows modelled here).
-/

namespace AgentBond

/-- Python values as they occur in transcripts, policy rules and
evidence payloads.  Ints and floats are merged into `num`. -/
inductive PyVal where
  | none
  | bool (b : Bool)
  | num (q : Rat)
  | str (s : String)
  | list (xs : List PyVal)
  | dict (ps : List (String × PyVal))

/-- First-occurrence deduplication, modelling Python `set(...)`
construction (iteration order modelled as first-occurrence order). -/
def pySet : List String → List String
  | [] => []
  | x :: xs => x :: (pySet xs).filter (fun y => y ≠ x)

/-- All-digit string to value; `Option.none` when empty or any
character is not a decimal digit. -/
def digitsVal : List Char → Option Nat
  | [] => Option.none
  | [c] => if c.isDigit then some (c.toNat - 48) else Option.none
  | c :: cs =>
      if c.isDigit then
        (digitsVal cs).map (fun n => (c.toNat - 48) * 10 ^ cs.length + n)
      else Option.none

/-- Unsigned decimal literal, with an optional fractional part
(`"12"`, `"12.5"`, `".5"`, `"5."`). -/
def parseUnsignedDec (t : String) : Option Rat :=
  match t.splitOn "." with
  | [a] => (digitsVal a.toList).map (fun n => (n : Rat))
  | [a, b] =>
      if a.isEmpty && b.isEmpty then Option.none
      else
        match (if a.isEmpty then some 0 else digitsVal a.toList),
              (if b.isEmpty then some 0 else digitsVal b.toList) with
        | some ia, some fb => some ((ia : Rat) + (fb : Rat) / ((10 : Rat) ^ b.toList.length))
        | _, _ => Option.none
  | _ => Option.none

/-- Python `float(s)` on strings, restricted to plain signed decimal
literals (exponents, `inf`/`nan` and underscore separators are not
modelled; no claim depends on them). -/
def parsePyFloat (s : String) : Option Rat :=
  let t := s.trim
  match t.toList with
  | '+' :: rest => parseUnsignedDec (String.mk rest)
  | '-' :: rest => (parseUnsignedDec (String.mk rest)).map (fun q => -q)
  | _ => parseUnsignedDec t

/-- Python `float(x)` with `TypeError`/`ValueError` as `Option.none`
(the engine catches those and skips the entry). -/
def pyFloat : PyVal → Option Rat
  | PyVal.num q => some q
  | PyVal.bool b => some (if b then 1 else 0)
  | PyVal.str s => parsePyFloat s
  | _ => Option.none

/-- Insert a key-value pair into a key-sorted association list. -/
def insertByKey (p : String × PyVal) : List (String × PyVal) → List (String × PyVal)
  | [] => [p]
  | q :: qs => if q.1 < p.1 then q :: insertByKey p qs else p :: q :: qs

/-- Insertion sort of an association list by key, modelling
`sort_keys=True`. -/
def sortByKey : List (String × PyVal) → List (String × PyVal)
  | [] => []
  | p :: ps => insertByKey p (sortByKey ps)

mutual
/-- Recursively sort every dict in a value by key; `json.dumps(x,
sort_keys=True)` is `dumpsRaw (sortAll x)`. -/
def sortAll : PyVal → PyVal
  | PyVal.list xs => PyVal.list (sortAllList xs)
  | PyVal.dict ps => PyVal.dict (sortByKey (sortAllDict ps))
  | v => v

def sortAllList : List PyVal → List PyVal
  | [] => []
  | x :: xs => sortAll x :: sortAllList xs

def sortAllDict : List (String × PyVal) → List (String × PyVal)
  | [] => []
  | (k, v) :: ps => (k, sortAll v) :: sortAllDict ps
end

/-- Lower-case hex digit. -/
def hexDigit (n : Nat) : Char :=
  (("0123456789abcdef".toList).getD n '0')

/-- Fixed-width big-endian hex rendering. -/
def hexNat (width n : Nat) : String :=
  String.mk ((List.range width).map (fun i => hexDigit (n / 16 ^ (width - 1 - i) % 16)))

/-- JSON string escaping as `json.dumps` does with the default
`ensure_ascii=True`: quote, backslash, the short control escapes, and
`\uXXXX` (with surrogate pairs) for other control or non-ASCII
characters. -/
def escapeChar (c : Char) : String :=
  if c = '"' then "\\\""
  else if c = '\\' then "\\\\"
  else if c = '\n' then "\\n"
  else if c = '\t' then "\\t"
  else if c = '\r' then "\\r"
  else if c.toNat = 8 then "\\b"
  else if c.toNat = 12 then "\\f"
  else if c.toNat < 32 ∨ c.toNat > 126 then
    if c.toNat ≤ 65535 then "\\u" ++ hexNat 4 c.toNat
    else
      let m := c.toNat - 65536
      "\\u" ++ hexNat 4 (55296 + m / 1024) ++ "\\u" ++ hexNat 4 (56320 + m % 1024)
  else String.singleton c

def dumpStr (s : String) : String :=
  "\"" ++ String.join (s.toList.map escapeChar) ++ "\""

/-- Number rendering: integers exactly as Python renders them;
non-integral rationals in fraction form (a stand-in for Python float
repr, which binary floats make unreproducible over `Rat`; no theorem
evaluates it). -/
def dumpNum (q : Rat) : String :=
  if q.den = 1 then toString q.num
  else toString q.num ++ "/" ++ toString q.den

mutual
/-- Render a value whose dicts are already key-sorted, with
`json.dumps` default separators. -/
def dumpsRaw : PyVal → String
  | PyVal.none => "null"
  | PyVal.bool b => if b then "true" else "false"
  | PyVal.num q => dumpNum q
  | PyVal.str s => dumpStr s
  | PyVal.list xs => "[" ++ dumpsRawList xs ++ "]"
  | PyVal.dict ps => "\x7b" ++ dumpsRawDict ps ++ "\x7d"

def dumpsRawList : List PyVal → String
  | [] => ""
  | [x] => dumpsRaw x
  | x :: y :: xs => dumpsRaw x ++ ", " ++ dumpsRawList (y :: xs)

def dumpsRawDict : List (String × PyVal) → String
  | [] => ""
  | [(k, v)] => dumpStr k ++ ": " ++ dumpsRaw v
  | (k, v) :: q :: ps => dumpStr k ++ ": " ++ dumpsRaw v ++ ", " ++ dumpsRawDict (q :: ps)
end

/-- Model of `json.dumps(v, sort_keys=True)`. -/
def dumps (v : PyVal) : String :=
  dumpsRaw (sortAll v)

/-- UTF-8 encoding of a string as a byte list (`str.encode()`). -/
def strBytes (s : String) : List Nat :=
  s.toUTF8.toList.map (fun b => b.toNat)

/-! SHA-256 (`hashlib.sha256`), over byte lists, with 32-bit words as
`Nat` reduced mod `2 ^ 32`. -/

def w32 (n : Nat) : Nat := n % 4294967296

def rotr32 (n x : Nat) : Nat :=
  x / 2 ^ n + x % 2 ^ n * 2 ^ (32 - n)

def sha256K : List Nat :=
  [
   1116352408, 1899447441, 3049323471, 3921009573,
   961987163, 1508970993, 2453635748, 2870763221,
   3624381080, 310598401, 607225278, 1426881987,
   1925078388, 2162078206, 2614888103, 3248222580,
   3835390401, 4022224774, 264347078, 604807628,
   770255983, 1249150122, 1555081692, 1996064986,
   2554220882, 2821834349, 2952996808, 3210313671,
   3336571891, 3584528711, 113926993, 338241895,
   666307205, 773529912, 1294757372, 1396182291,
   1695183700, 1986661051, 2177026350, 2456956037,
   2730485921, 2820302411, 3259730800, 3345764771,
   3516065817, 3600352804, 4094571909, 275423344,
   430227734, 506948616, 659060556, 883997877,
   958139571, 1322822218, 1537002063, 1747873779,
   1955562222, 2024104815, 2227730452, 2361852424,
   2428436474, 2756734187, 3204031479, 3329325298]

def sha256H0 : List Nat :=
  [
   1779033703, 3144134277, 1013904242, 2773480762,
   1359893119, 2600822924, 528734635, 1541459225]

/-- Big-endian bytes of width `k`. -/
def toBytesBE (k n : Nat) : List Nat :=
  (List.range k).map (fun i => n / 2 ^ (8 * (k - 1 - i)) % 256)

/-- Big-endian 32-bit word from four bytes. -/
def wordOfBytes (bs : List Nat) : Nat :=
  bs.getD 0 0 * 16777216 + bs.getD 1 0 * 65536 + bs.getD 2 0 * 256 + bs.getD 3 0

/-- SHA-256 padding: `0x80`, zeros, then the 64-bit big-endian bit
length, to a multiple of 64 bytes. -/
def sha256Pad (msg : List Nat) : List Nat :=
  let padLen := (64 + 55 - msg.length % 64) % 64
  msg ++ [128] ++ List.replicate padLen 0 ++ toBytesBE 8 (msg.length * 8)

def chunks64 (l : List Nat) : List (List Nat) :=
  if h : l = [] then []
  else l.take 64 :: chunks64 (l.drop 64)
termination_by l.length
decreasing_by
  have : l.length ≠ 0 := fun hz => h (List.eq_nil_of_length_eq_zero hz)
  simp [List.length_drop]
  omega

def smallSigma0 (x : Nat) : Nat := Nat.xor (Nat.xor (rotr32 7 x) (rotr32 18 x)) (x / 2 ^ 3)

def smallSigma1 (x : Nat) : Nat := Nat.xor (Nat.xor (rotr32 17 x) (rotr32 19 x)) (x / 2 ^ 10)

def bigSigma0 (x : Nat) : Nat := Nat.xor (Nat.xor (rotr32 2 x) (rotr32 13 x)) (rotr32 22 x)

def bigSigma1 (x : Nat) : Nat := Nat.xor (Nat.xor (rotr32 6 x) (rotr32 11 x)) (rotr32 25 x)

/-- One message-schedule extension step: appends word `w[n]` computed
from `w[n-16]`, `w[n-15]`, `w[n-7]`, `w[n-2]`. -/
def scheduleStep (w : List Nat) : List Nat :=
  let n := w.length
  w ++ [w32 (w.getD (n - 16) 0 + smallSigma0 (w.getD (n - 15) 0) +
             w.getD (n - 7) 0 + smallSigma1 (w.getD (n - 2) 0))]

def msgSchedule (w0 : List Nat) : List Nat :=
  (List.range 48).foldl (fun w _ => scheduleStep w) w0

def sha256Round (w : List Nat) (st : List Nat) (i : Nat) : List Nat :=
  let a := st.getD 0 0
  let b := st.getD 1 0
  let c := st.getD 2 0
  let d := st.getD 3 0
  let e := st.getD 4 0
  let f := st.getD 5 0
  let g := st.getD 6 0
  let h := st.getD 7 0
  let ch := Nat.xor (Nat.land e f) (Nat.land (Nat.xor e 4294967295) g)
  let temp1 := w32 (h + bigSigma1 e + ch + sha256K.getD i 0 + w.getD i 0)
  let mj := Nat.xor (Nat.xor (Nat.land a b) (Nat.land a c)) (Nat.land b c)
  let temp2 := w32 (bigSigma0 a + mj)
  [w32 (temp1 + temp2), a, b, c, w32 (d + temp1), e, f, g]

def sha256Chunk (hs : List Nat) (chunk : List Nat) : List Nat :=
  let w0 := (List.range 16).map (fun i => wordOfBytes ((chunk.drop (4 * i)).take 4))
  let w := msgSchedule w0
  let fin := (List.range 64).foldl (sha256Round w) hs
  List.zipWith (fun x y => w32 (x + y)) hs fin

/-- SHA-256 digest of a byte list, as the lower-case hex string
`hashlib.sha256(b).hexdigest()` returns. -/
def sha256Hex (msg : List Nat) : String :=
  let hs := (chunks64 (sha256Pad msg)).foldl sha256Chunk sha256H0
  String.join (hs.map (fun hw => hexNat 8 hw))

/-! Policy evaluation engine (`backend/services/policy_engine.py`). -/

/-- The recognized keys of a policy `rules` document, each optional
(`policy.get(key)` reads them defensively; spec section 3 gives the
value types). -/
structure PolicyRules where
  allowed_tools : Option (List String) := Option.none
  max_value_per_action : Option Rat := Option.none
  prohibited_targets : Option (List String) := Option.none
  max_actions_per_window : Option Rat := Option.none
  window_seconds : Option Rat := Option.none
  required_data_freshness_seconds : Option Rat := Option.none
deriving DecidableEq

/-- A transcript entry, as the engine reads it: `entry.get("role")`,
`entry.get("tool", "")`, `entry.get("args", \x7b\x7d)`.  Fields the
engine never reads (`content`, `result`) are omitted. -/
structure Entry where
  role : Option String := Option.none
  tool : Option String := Option.none
  args : List (String × PyVal) := []

/-- A run-history element; the engine reads `run.get("timestamp", 0)`. -/
structure HistEntry where
  timestamp : Option Rat := Option.none

/-- A data source inside run metadata: `source.get("name", "unknown")`
and `source.get("timestamp", 0)`. -/
structure DataSource where
  name : Option String := Option.none
  timestamp : Option Rat := Option.none

/-- Run metadata as the engine reads it. -/
structure RunMetadata where
  data_sources : List DataSource := []
  declared_model : Option String := Option.none
  executed_model : Option String := Option.none

structure RuleResult where
  passed : Bool
  reason_code : String
  evidence : List (String × PyVal) := []

structure PolicyVerdict where
  passed : Bool
  results : List RuleResult
  failed_codes : List String
  evidence_hash : String

/-- Python truthiness of an optional string (`None` and `""` falsy). -/
def strTruthy : Option String → Bool
  | Option.none => false
  | some s => !s.isEmpty

def optStr : Option String → PyVal
  | Option.none => PyVal.none
  | some s => PyVal.str s

def toolWhitelistCode : String := "TOOL_WHITELIST_VIOLATION"
def valueLimitCode : String := "VALUE_LIMIT_EXCEEDED"
def prohibitedTargetCode : String := "PROHIBITED_TARGET"
def frequencyCode : String := "FREQUENCY_EXCEEDED"
def staleDataCode : String := "STALE_DATA"
def modelMismatchCode : String := "MODEL_MISMATCH"

def toolViolations (transcript : List Entry) (allowed : List String) : List String :=
  transcript.filterMap (fun e =>
    if e.role = some "tool_call" then
      if e.tool.getD "" ≠ "" ∧ e.tool.getD "" ∉ allowed then some (e.tool.getD "")
      else Option.none
    else Option.none)

/-- Check that all tool calls are in the `allowed_tools` list. -/
def check_tool_whitelist (transcript : List Entry) (policy : PolicyRules) : RuleResult :=
  let allowed := pySet (policy.allowed_tools.getD [])
  if allowed.isEmpty then { passed := true, reason_code := toolWhitelistCode }
  else
    let violations := toolViolations transcript allowed
    if violations.isEmpty then { passed := true, reason_code := toolWhitelistCode }
    else
      { passed := false, reason_code := toolWhitelistCode,
        evidence := [("disallowed_tools", PyVal.list (violations.map PyVal.str)),
                     ("allowed", PyVal.list (allowed.map PyVal.str))] }

/-- The raw candidate value of a tool call:
`args.get("value", args.get("amount", 0))`. -/
def entryRawValue (e : Entry) : PyVal :=
  (e.args.lookup "value").getD ((e.args.lookup "amount").getD (PyVal.num 0))

def valueViolations (transcript : List Entry) (maxv : Rat) : List PyVal :=
  transcript.filterMap (fun e =>
    if e.role = some "tool_call" then
      match pyFloat (entryRawValue e) with
      | some v =>
          if v > maxv then
            some (PyVal.dict [("tool", optStr e.tool), ("value", PyVal.num v),
                              ("max", PyVal.num maxv)])
          else Option.none
      | Option.none => Option.none
    else Option.none)

/-- Check that no single action exceeds `max_value_per_action`. -/
def check_value_limits (transcript : List Entry) (policy : PolicyRules) : RuleResult :=
  match policy.max_value_per_action with
  | Option.none => { passed := true, reason_code := valueLimitCode }
  | some maxv =>
      let violations := valueViolations transcript maxv
      if violations.isEmpty then { passed := true, reason_code := valueLimitCode }
      else
        { passed := false, reason_code := valueLimitCode,
          evidence := [("violations", PyVal.list violations)] }

/-- The raw target of a tool call:
`args.get("target", args.get("to", args.get("address", "")))`. -/
def entryRawTarget (e : Entry) : PyVal :=
  (e.args.lookup "target").getD
    ((e.args.lookup "to").getD ((e.args.lookup "address").getD (PyVal.str "")))

def targetViolations (transcript : List Entry) (prohibited : List String) : List PyVal :=
  transcript.filterMap (fun e =>
    if e.role = some "tool_call" then
      match entryRawTarget e with
      | PyVal.str t =>
          if t.toLower ∈ prohibited then
            some (PyVal.dict [("tool", optStr e.tool), ("target", PyVal.str t)])
          else Option.none
      | _ => Option.none
    else Option.none)

/-- Check that no action targets a prohibited address. -/
def check_prohibited_targets (transcript : List Entry) (policy : PolicyRules) : RuleResult :=
  let prohibited := pySet ((policy.prohibited_targets.getD []).map String.toLower)
  if prohibited.isEmpty then { passed := true, reason_code := prohibitedTargetCode }
  else
    let violations := targetViolations transcript prohibited
    if violations.isEmpty then { passed := true, reason_code := prohibitedTargetCode }
    else
      { passed := false, reason_code := prohibitedTargetCode,
        evidence := [("violations", PyVal.list violations),
                     ("prohibited", PyVal.list (prohibited.map PyVal.str))] }

/-- Check that action count within the window does not exceed the max
(`now` embeds the `time.time()` read). -/
def check_action_frequency (run_history : List HistEntry) (policy : PolicyRules)
    (now : Rat) : RuleResult :=
  match policy.max_actions_per_window, policy.window_seconds with
  | some max_actions, some window =>
      let cutoff := now - window
      let recent_count := run_history.countP (fun run => run.timestamp.getD 0 ≥ cutoff)
      if (recent_count : Rat) > max_actions then
        { passed := false, reason_code := frequencyCode,
          evidence := [("count", PyVal.num recent_count),
                       ("max", PyVal.num max_actions),
                       ("window_seconds", PyVal.num window)] }
      else { passed := true, reason_code := frequencyCode }
  | _, _ => { passed := true, reason_code := frequencyCode }

def staleSources (sources : List DataSource) (max_staleness now : Rat) : List PyVal :=
  sources.filterMap (fun source =>
    let age := now - source.timestamp.getD 0
    if age > max_staleness then
      some (PyVal.dict [("source", PyVal.str (source.name.getD "unknown")),
                        ("age_seconds", PyVal.num age),
                        ("max_seconds", PyVal.num max_staleness)])
    else Option.none)

/-- Check that data sources used are within the freshness requirement. -/
def check_data_freshness (run_metadata : RunMetadata) (policy : PolicyRules)
    (now : Rat) : RuleResult :=
  match policy.required_data_freshness_seconds with
  | Option.none => { passed := true, reason_code := staleDataCode }
  | some max_staleness =>
      let stale := staleSources run_metadata.data_sources max_staleness now
      if stale.isEmpty then { passed := true, reason_code := staleDataCode }
      else
        { passed := false, reason_code := staleDataCode,
          evidence := [("stale_sources", PyVal.list stale)] }

/-- Check that the executed model matches the declared model (the
source takes a policy argument it never reads). -/
def check_model_mismatch (run_metadata : RunMetadata) (_policy : PolicyRules) : RuleResult :=
  let declared := run_metadata.declared_model
  let executed := run_metadata.executed_model
  if !strTruthy declared || !strTruthy executed then
    { passed := true, reason_code := modelMismatchCode }
  else if declared ≠ executed then
    { passed := false, reason_code := modelMismatchCode,
      evidence := [("declared", optStr declared), ("executed", optStr executed)] }
  else { passed := true, reason_code := modelMismatchCode }

/-- The hashed evidence payload:
`[ \x7b "code": ..., "passed": ..., "evidence": ... \x7d for each result ]`. -/
def resultsJson (rs : List RuleResult) : PyVal :=
  PyVal.list (rs.map (fun r =>
    PyVal.dict [("code", PyVal.str r.reason_code), ("passed", PyVal.bool r.passed),
                ("evidence", PyVal.dict r.evidence)]))

/-- Run all policy checks and return the aggregate verdict.  The
Python signature defaults `run_history` to `[]` and `run_metadata` to
an empty dict; callers here pass them explicitly, and `now` embeds the
wall-clock reads of the two time-dependent checks. -/
def evaluate_policy (transcript : List Entry) (policy : PolicyRules)
    (run_history : List HistEntry) (run_metadata : RunMetadata)
    (now : Rat) : PolicyVerdict :=
  let results := [
    check_tool_whitelist transcript policy,
    check_value_limits transcript policy,
    check_prohibited_targets transcript policy,
    check_action_frequency run_history policy now,
    check_data_freshness run_metadata policy now,
    check_model_mismatch run_metadata policy]
  let failed := results.filter (fun r => !r.passed)
  let failed_codes := failed.map (fun r => r.reason_code)
  let evidence_hash := sha256Hex (strBytes (dumps (resultsJson results)))
  { passed := failed.isEmpty, results := results, failed_codes := failed_codes,
    evidence_hash := evidence_hash }

/-! Reputation scorer (`backend/services/reputation.py`). -/

/-- Python `round` to the nearest integer, halves to even
(banker rounding). -/
def pyRound (q : Rat) : Int :=
  if q - (⌊q⌋ : Rat) < 1 / 2 then ⌊q⌋
  else if q - (⌊q⌋ : Rat) > 1 / 2 then ⌊q⌋ + 1
  else if ⌊q⌋ % 2 = 0 then ⌊q⌋ else ⌊q⌋ + 1

/-- Python `round(x, 2)`. -/
def roundTo2 (q : Rat) : Rat :=
  (pyRound (q * 100) : Rat) / 100

/-- Python `min` on two numbers (kernel-reducible). -/
def pyMinR (a b : Rat) : Rat := if a ≤ b then a else b

/-- Python `min` on two integers (kernel-reducible). -/
def pyMinI (a b : Int) : Int := if a ≤ b then a else b

/-- Python `max` on two integers (kernel-reducible). -/
def pyMaxI (a b : Int) : Int := if a ≤ b then b else a

structure ScoreBreakdown where
  base : Int
  violation_penalty : Rat
  claim_penalty : Rat
  recency_bonus : Rat
deriving DecidableEq

structure ScoreResult where
  agent_id : Nat
  score : Int
  total_runs : Nat
  violations : Nat
  paid_claims : Nat
  breakdown : ScoreBreakdown
deriving DecidableEq

/-- Compute the trust score from the aggregate counters of the agent.  The
database aggregates the source queries (total runs and violations from
the agent row, paid-claim count, passing runs over the last seven
days) enter as arguments; `compute_score_db` below derives them from
the database state. -/
def compute_score (agent_id total_runs violations paid_claims recent_clean : Nat) :
    ScoreResult :=
  if total_runs = 0 then
    { agent_id := agent_id, score := 100, total_runs := 0, violations := 0,
      paid_claims := 0,
      breakdown := { base := 100, violation_penalty := 0, claim_penalty := 0,
                     recency_bonus := 0 } }
  else
    let base : Int := 100
    let vr : Rat := (violations : Rat) / (total_runs : Rat)
    let violation_penalty := pyMinR (vr * 60) 60
    let cr : Rat := if total_runs > 0 then (paid_claims : Rat) / (total_runs : Rat) else 0
    let claim_penalty := pyMinR (cr * 30) 30
    let recency_bonus := pyMinR ((recent_clean : Rat) * (1 / 2)) 10
    let score := pyMaxI 0 (pyRound ((base : Rat) - violation_penalty - claim_penalty + recency_bonus))
    let score := pyMinI 100 score
    { agent_id := agent_id, score := score, total_runs := total_runs,
      violations := violations, paid_claims := paid_claims,
      breakdown := { base := base, violation_penalty := roundTo2 violation_penalty,
                     claim_penalty := roundTo2 claim_penalty,
                     recency_bonus := roundTo2 recency_bonus } }

/-! Database rows and state (`backend/models/schema.py`), restricted
to the fields the modelled operations read or write. -/

inductive PolicyStatus where
  | active
  | deprecated
deriving DecidableEq

inductive ClaimStatus where
  | submitted
  | verified
  | approved
  | rejected
  | paid
deriving DecidableEq

def claimStatusValue : ClaimStatus → String
  | ClaimStatus.submitted => "submitted"
  | ClaimStatus.verified => "verified"
  | ClaimStatus.approved => "approved"
  | ClaimStatus.rejected => "rejected"
  | ClaimStatus.paid => "paid"

structure AgentRow where
  id : Nat
  operator_id : Nat
  trust_score : Int := 100
  total_runs : Nat := 0
  violations : Nat := 0
deriving DecidableEq

structure PolicyRow where
  id : Nat
  agent_id : Nat
  policy_hash : String
  rules : PolicyRules
  status : PolicyStatus
deriving DecidableEq

structure RunRow where
  id : Nat
  run_id : String
  agent_id : Nat
  transcript : Option (List Entry) := Option.none
  policy_verdict : Option String := Option.none
  created_at : Rat := 0

structure ClaimRow where
  id : Nat
  run_id : Nat
  agent_id : Nat
  claimant_address : String
  reason_code : String
  evidence_hash : String
  status : ClaimStatus
  payout_amount : Option Nat := Option.none

structure SnapshotRow where
  id : Nat
  agent_id : Nat
  score : Int
  total_runs : Nat
  violations : Nat
  snapshot_hash : String

structure DBState where
  agents : List AgentRow := []
  policies : List PolicyRow := []
  runs : List RunRow := []
  claims : List ClaimRow := []
  snapshots : List SnapshotRow := []

def findAgent (db : DBState) (aid : Nat) : Option AgentRow :=
  db.agents.find? (fun a => a.id == aid)

def findPolicy (db : DBState) (pid : Nat) : Option PolicyRow :=
  db.policies.find? (fun p => p.id == pid)

def findRunById (db : DBState) (rid : Nat) : Option RunRow :=
  db.runs.find? (fun r => r.id == rid)

def findRunByUuid (db : DBState) (uuid : String) : Option RunRow :=
  db.runs.find? (fun r => r.run_id == uuid)

def findClaim (db : DBState) (cid : Nat) : Option ClaimRow :=
  db.claims.find? (fun c => c.id == cid)

/-- The current active policy of the agent: `status == "active"`, latest by
id (`order_by(Policy.id.desc()).limit(1)`). -/
def latestActivePolicy (db : DBState) (aid : Nat) : Option PolicyRow :=
  (db.policies.filter (fun p => p.agent_id == aid && p.status == PolicyStatus.active)).foldl
    (fun best p =>
      match best with
      | Option.none => some p
      | some b => if b.id < p.id then some p else some b)
    Option.none

/-! Claim verifier (`backend/services/claim_verifier.py`). -/

def VALID_REASON_CODES : List String :=
  [toolWhitelistCode, valueLimitCode, prohibitedTargetCode,
   frequencyCode, staleDataCode, modelMismatchCode]

structure VerificationResult where
  valid : Bool
  approved : Bool
  reason : String
  evidence_hash : String
deriving DecidableEq

/-- Verify a claim by re-evaluating the run against its policy.  The
source performs only reads on the database, so the embedding is a pure
function of the state; `now` embeds the wall-clock reads of the engine. -/
def verify_claim (db : DBState) (claim_id : Nat) (now : Rat) : VerificationResult :=
  match findClaim db claim_id with
  | Option.none => { valid := false, approved := false, reason := "Claim not found", evidence_hash := "" }
  | some claim =>
      if claim.status ≠ ClaimStatus.submitted then
        { valid := false, approved := false,
          reason := "Invalid claim status: " ++ claimStatusValue claim.status,
          evidence_hash := "" }
      else if claim.reason_code ∉ VALID_REASON_CODES then
        { valid := true, approved := false,
          reason := "Invalid reason code: " ++ claim.reason_code, evidence_hash := "" }
      else
        match findRunById db claim.run_id with
        | Option.none =>
            { valid := true, approved := false, reason := "Referenced run not found",
              evidence_hash := "" }
        | some run =>
            let policy_rules := ((latestActivePolicy db run.agent_id).map
              (fun p => p.rules)).getD {}
            let verdict := evaluate_policy (run.transcript.getD []) policy_rules [] {} now
            if claim.reason_code ∈ verdict.failed_codes then
              { valid := true, approved := true,
                reason := "Violation confirmed: " ++ claim.reason_code,
                evidence_hash := verdict.evidence_hash }
            else
              { valid := true, approved := false,
                reason := "Claimed violation " ++ claim.reason_code ++
                  " not found in re-evaluation",
                evidence_hash := verdict.evidence_hash }

/-! Reputation persistence (`snapshot_score`) and the claim/policy
endpoints (`backend/routers/claims.py`, `backend/routers/policies.py`). -/

def nextId {α : Type} (ids : List α → List Nat) (xs : List α) : Nat :=
  (ids xs).foldl max 0 + 1

/-- Pull the database aggregates of the scorer from the state and apply the
formula.  `Option.none` when the agent row is absent (the source
raises `ValueError` there). -/
def compute_score_db (db : DBState) (aid : Nat) (now : Rat) : Option ScoreResult :=
  match findAgent db aid with
  | Option.none => Option.none
  | some agent =>
      let paid_claims := db.claims.countP
        (fun c => c.agent_id == aid && c.status == ClaimStatus.paid)
      let week_ago := now - 604800
      let recent_clean := db.runs.countP
        (fun r => r.agent_id == aid && r.policy_verdict == some "pass" &&
          decide (r.created_at ≥ week_ago))
      some (compute_score aid agent.total_runs agent.violations paid_claims recent_clean)

/-- The hashed snapshot payload: `json.dumps(score_data,
sort_keys=True)` over the full score result. -/
def scoreJson (sd : ScoreResult) : PyVal :=
  PyVal.dict [
    ("agent_id", PyVal.num sd.agent_id),
    ("score", PyVal.num sd.score),
    ("total_runs", PyVal.num sd.total_runs),
    ("violations", PyVal.num sd.violations),
    ("paid_claims", PyVal.num sd.paid_claims),
    ("breakdown", PyVal.dict [
      ("base", PyVal.num sd.breakdown.base),
      ("violation_penalty", PyVal.num sd.breakdown.violation_penalty),
      ("claim_penalty", PyVal.num sd.breakdown.claim_penalty),
      ("recency_bonus", PyVal.num sd.breakdown.recency_bonus)])]

/-- Compute and persist a reputation snapshot, then update the trust
score of the agent (the best-effort on-chain sync is outside the model). -/
def snapshot_score (db : DBState) (aid : Nat) (now : Rat) : Option (DBState × ScoreResult) :=
  match compute_score_db db aid now with
  | Option.none => Option.none
  | some sd =>
      let snap : SnapshotRow :=
        { id := nextId (fun s => s.map SnapshotRow.id) db.snapshots, agent_id := aid,
          score := sd.score, total_runs := sd.total_runs, violations := sd.violations,
          snapshot_hash := sha256Hex (strBytes (dumps (scoreJson sd))) }
      some ({ db with snapshots := db.snapshots ++ [snap],
                      agents := db.agents.map (fun a =>
                        if a.id == aid then { a with trust_score := sd.score } else a) },
            sd)

structure SubmitClaimRequest where
  run_id : String
  agent_id : Nat
  claimant_address : String
  reason_code : String
  evidence : Option (List (String × PyVal)) := Option.none

inductive SubmitError where
  | invalidReasonCode
  | runNotFound
  | claimConflict
  | agentMissing
deriving DecidableEq

structure SubmitClaimResponse where
  claim_id : Nat
  status : ClaimStatus
  approved : Bool
  reason : String
  evidence_hash : String

/-- Submit a warranty claim against a run (`POST /api/claims`).  The
webhook notifications and the on-chain settlement branch (guarded by
`contracts.is_configured()`) are outside the model; `agentMissing`
stands for the `ValueError` the scorer raises when the request names a
nonexistent agent after an approval. -/
def submit_claim (db : DBState) (req : SubmitClaimRequest) (now : Rat) :
    Except SubmitError (DBState × SubmitClaimResponse) :=
  if req.reason_code ∉ VALID_REASON_CODES then Except.error SubmitError.invalidReasonCode
  else
    match findRunByUuid db req.run_id with
    | Option.none => Except.error SubmitError.runNotFound
    | some run =>
        if (db.claims.find? (fun c => c.run_id == run.id)).isSome then
          Except.error SubmitError.claimConflict
        else
          let evidence_hash := sha256Hex (strBytes (dumps (PyVal.dict (req.evidence.getD []))))
          let cid := nextId (fun c => c.map ClaimRow.id) db.claims
          let claim : ClaimRow :=
            { id := cid, run_id := run.id, agent_id := req.agent_id,
              claimant_address := req.claimant_address, reason_code := req.reason_code,
              evidence_hash := evidence_hash, status := ClaimStatus.submitted }
          let db1 : DBState := { db with claims := db.claims ++ [claim] }
          let verification := verify_claim db1 cid now
          if verification.approved then
            let db2 : DBState := { db1 with claims := db1.claims.map (fun c =>
              if c.id == cid then
                { c with status := ClaimStatus.approved,
                         payout_amount := some 10000000000000000 }
              else c) }
            match snapshot_score db2 req.agent_id now with
            | Option.none => Except.error SubmitError.agentMissing
            | some (db3, _) =>
                Except.ok (db3,
                  { claim_id := cid, status := ClaimStatus.approved, approved := true,
                    reason := verification.reason,
                    evidence_hash := verification.evidence_hash })
          else
            Except.ok (db1,
              { claim_id := cid, status := ClaimStatus.submitted, approved := false,
                reason := verification.reason,
                evidence_hash := verification.evidence_hash })

/-- The database state an endpoint leaves behind: unchanged when the
request is rejected. -/
def submit_claim_state (db : DBState) (req : SubmitClaimRequest) (now : Rat) : DBState :=
  match submit_claim db req now with
  | Except.ok (db1, _) => db1
  | Except.error _ => db

inductive ApiError where
  | notFound
  | badRequest
  | forbidden
deriving DecidableEq

/-- The JSON document of a rules request, one key per set field
(unset optional fields are absent keys). -/
def rulesJson (r : PolicyRules) : PyVal :=
  PyVal.dict (
    (match r.allowed_tools with
     | some ts => [("allowed_tools", PyVal.list (ts.map PyVal.str))]
     | Option.none => []) ++
    (match r.max_value_per_action with
     | some v => [("max_value_per_action", PyVal.num v)]
     | Option.none => []) ++
    (match r.prohibited_targets with
     | some ts => [("prohibited_targets", PyVal.list (ts.map PyVal.str))]
     | Option.none => []) ++
    (match r.max_actions_per_window with
     | some v => [("max_actions_per_window", PyVal.num v)]
     | Option.none => []) ++
    (match r.window_seconds with
     | some v => [("window_seconds", PyVal.num v)]
     | Option.none => []) ++
    (match r.required_data_freshness_seconds with
     | some v => [("required_data_freshness_seconds", PyVal.num v)]
     | Option.none => []))

/-- Register a new policy for an agent (`POST /api/policies`): the row
is created directly with `status = active`; no sibling policy is
touched.  The on-chain registration branch is outside the model. -/
def register_policy (db : DBState) (operator_id agent_id : Nat) (rules : PolicyRules) :
    Except ApiError (DBState × PolicyRow) :=
  match findAgent db agent_id with
  | Option.none => Except.error ApiError.notFound
  | some agent =>
      if agent.operator_id ≠ operator_id then Except.error ApiError.forbidden
      else
        let policy_hash := sha256Hex (strBytes (dumps (rulesJson rules)))
        let row : PolicyRow :=
          { id := nextId (fun p => p.map PolicyRow.id) db.policies, agent_id := agent_id,
            policy_hash := policy_hash, rules := rules, status := PolicyStatus.active }
        Except.ok ({ db with policies := db.policies ++ [row] }, row)

/-- The per-row effect of activation: the target policy becomes
active; any other active policy of the same agent is deprecated; all
other rows are untouched. -/
def activateRow (policy_id agent_id : Nat) (p : PolicyRow) : PolicyRow :=
  if p.id == policy_id then { p with status := PolicyStatus.active }
  else if p.agent_id == agent_id && p.status == PolicyStatus.active then
    { p with status := PolicyStatus.deprecated }
  else p

/-- Activate a policy for an agent
(`POST /api/policies/(policy_id)/activate`): deprecates the other active
policies of the agent and marks the target active, in one commit. -/
def activate_policy (db : DBState) (operator_id policy_id agent_id : Nat) :
    Except ApiError DBState :=
  match findPolicy db policy_id with
  | Option.none => Except.error ApiError.notFound
  | some pol =>
      if pol.agent_id ≠ agent_id then Except.error ApiError.badRequest
      else
        match findAgent db agent_id with
        | Option.none => Except.error ApiError.forbidden
        | some agent =>
            if agent.operator_id ≠ operator_id then Except.error ApiError.forbidden
            else
              Except.ok
                { db with policies := db.policies.map (activateRow policy_id agent_id) }

/-- At most one policy row with `active` status per agent. -/
def atMostOneActive (ps : List PolicyRow) : Prop :=
  ps.Pairwise (fun p q => ¬(p.agent_id = q.agent_id ∧
    p.status = PolicyStatus.active ∧ q.status = PolicyStatus.active))

/-- The canonical rule-code order of the six checks. -/
def ruleCodes : List String :=
  [toolWhitelistCode, valueLimitCode, prohibitedTargetCode, frequencyCode,
   staleDataCode, modelMismatchCode]

/-! Concrete example inputs used by witnesses, counterexamples, and
scenario checks. -/

def exC1e1 : Entry := { role := some "user" }

def exC1e2 : Entry :=
  { role := some "tool_call"
    tool := some "send_funds"
    args := [("value", PyVal.num 9999), ("target", PyVal.str "0xDEAD")] }

def exC1t : List Entry := [exC1e1, exC1e2]

def exC1p : PolicyRules :=
  { allowed_tools := some ["get_price"], max_value_per_action := some 100,
    prohibited_targets := some ["0xdead"] }

def exC1m : RunMetadata :=
  { declared_model := some "gpt-4", executed_model := some "gpt-4" }

def exC8e : Entry := { role := some "tool_call", tool := some "" }

def exC8p : PolicyRules := { allowed_tools := some ["get_price"] }

def exC9e : Entry := { role := some "tool_call", tool := some "noop" }

def exC9p : PolicyRules := { max_value_per_action := some (-1) }

def exRun3 : RunRow :=
  { id := 1, run_id := "run-3", agent_id := 1, transcript := some exC1t }

def exPol3 : PolicyRow :=
  { id := 1, agent_id := 1, policy_hash := "", rules := exC1p,
    status := PolicyStatus.active }

def exClaim3 : ClaimRow :=
  { id := 1, run_id := 1, agent_id := 1, claimant_address := "0xabc",
    reason_code := toolWhitelistCode, evidence_hash := "",
    status := ClaimStatus.submitted }

def exDb3 : DBState := { policies := [exPol3], runs := [exRun3], claims := [exClaim3] }

def exClaim7 : ClaimRow :=
  { id := 1, run_id := 1, agent_id := 1, claimant_address := "0xabc",
    reason_code := "NOT_A_CODE", evidence_hash := "",
    status := ClaimStatus.submitted }

def exDb7 : DBState := { claims := [exClaim7] }

def exRun10 : RunRow :=
  { id := 1, run_id := "run-10", agent_id := 1, transcript := some [] }

def exPol10 : PolicyRow :=
  { id := 1, agent_id := 1, policy_hash := "",
    rules := { required_data_freshness_seconds := some 60 },
    status := PolicyStatus.active }

def exClaim10 : ClaimRow :=
  { id := 1, run_id := 1, agent_id := 1, claimant_address := "0xabc",
    reason_code := staleDataCode, evidence_hash := "",
    status := ClaimStatus.submitted }

def exDb10 : DBState := { policies := [exPol10], runs := [exRun10], claims := [exClaim10] }

def exRun6 : RunRow := { id := 1, run_id := "run-6", agent_id := 1 }

def exClaim6 : ClaimRow :=
  { id := 1, run_id := 1, agent_id := 1, claimant_address := "0xabc",
    reason_code := toolWhitelistCode, evidence_hash := "",
    status := ClaimStatus.approved }

def exDb6 : DBState := { runs := [exRun6], claims := [exClaim6] }

def exReq6 : SubmitClaimRequest :=
  { run_id := "run-6", agent_id := 1, claimant_address := "0xdef",
    reason_code := valueLimitCode }

def exAgent5 : AgentRow := { id := 1, operator_id := 1 }

def exPol5a : PolicyRow :=
  { id := 1, agent_id := 1, policy_hash := "", rules := {},
    status := PolicyStatus.active }

def exPol5b : PolicyRow :=
  { id := 2, agent_id := 1, policy_hash := "", rules := {},
    status := PolicyStatus.deprecated }

def exDb5 : DBState := { agents := [exAgent5], policies := [exPol5a] }

/-- The state `POST /api/policies` leaves when registering a second
policy for agent 1 over `exDb5`. -/
def exDb5reg : DBState :=
  match register_policy exDb5 1 1 {} with
  | Except.ok (d, _) => d
  | Except.error _ => exDb5

def exDb5two : DBState := { agents := [exAgent5], policies := [exPol5a, exPol5b] }

/-- The state activation of policy 2 leaves over `exDb5two`. -/
def exDb5act : DBState :=
  match activate_policy exDb5two 1 2 1 with
  | Except.ok d => d
  | Except.error _ => exDb5two

/-! Helper lemmas about the six rule checks. -/

theorem mem_pySet {a : String} : ∀ {l : List String}, a ∈ pySet l ↔ a ∈ l := by
  intro l
  induction l with
  | nil => simp [pySet]
  | cons x xs ih =>
      by_cases hax : a = x
      · subst hax; simp [pySet]
      · simp [pySet, List.mem_filter, hax, ih]

theorem pySet_eq_nil_iff : ∀ {l : List String}, pySet l = [] ↔ l = [] := by
  intro l
  cases l with
  | nil => simp [pySet]
  | cons x xs => simp [pySet]

theorem pyMinR_eq_min (a b : Rat) : pyMinR a b = min a b := by
  rw [pyMinR, min_def]

theorem pyMinI_eq_min (a b : Int) : pyMinI a b = min a b := by
  rw [pyMinI, min_def]

theorem pyMaxI_eq_max (a b : Int) : pyMaxI a b = max a b := by
  rw [pyMaxI, max_def]


theorem check_tool_whitelist_code (t : List Entry) (p : PolicyRules) :
    (check_tool_whitelist t p).reason_code = toolWhitelistCode := by
  simp only [check_tool_whitelist]
  split
  · rfl
  · split <;> rfl

theorem check_value_limits_code (t : List Entry) (p : PolicyRules) :
    (check_value_limits t p).reason_code = valueLimitCode := by
  simp only [check_value_limits]
  split
  · rfl
  · split <;> rfl

theorem check_prohibited_targets_code (t : List Entry) (p : PolicyRules) :
    (check_prohibited_targets t p).reason_code = prohibitedTargetCode := by
  simp only [check_prohibited_targets]
  split
  · rfl
  · split <;> rfl

theorem check_action_frequency_code (h : List HistEntry) (p : PolicyRules) (now : Rat) :
    (check_action_frequency h p now).reason_code = frequencyCode := by
  simp only [check_action_frequency]
  split
  · split <;> rfl
  · rfl

theorem check_data_freshness_code (m : RunMetadata) (p : PolicyRules) (now : Rat) :
    (check_data_freshness m p now).reason_code = staleDataCode := by
  simp only [check_data_freshness]
  split
  · rfl
  · split <;> rfl

theorem check_model_mismatch_code (m : RunMetadata) (p : PolicyRules) :
    (check_model_mismatch m p).reason_code = modelMismatchCode := by
  simp only [check_model_mismatch]
  split
  · rfl
  · split <;> rfl

/-- A frequency check with either window parameter unset passes. -/
theorem check_action_frequency_unset {p : PolicyRules} (h : List HistEntry) (now : Rat)
    (hp : p.max_actions_per_window = Option.none ∨ p.window_seconds = Option.none) :
    check_action_frequency h p now = { passed := true, reason_code := frequencyCode } := by
  simp only [check_action_frequency]
  rcases hp with hp | hp
  · rw [hp]
  · rw [hp]
    cases p.max_actions_per_window <;> rfl

/-- A freshness check with the threshold unset passes. -/
theorem check_data_freshness_unset {p : PolicyRules} (m : RunMetadata) (now : Rat)
    (hp : p.required_data_freshness_seconds = Option.none) :
    check_data_freshness m p now = { passed := true, reason_code := staleDataCode } := by
  simp only [check_data_freshness]
  rw [hp]

/-- A freshness check over empty run metadata passes whatever the
policy requires, at any clock value. -/
theorem check_data_freshness_empty (p : PolicyRules) (now : Rat) :
    (check_data_freshness {} p now).passed = true := by
  simp only [check_data_freshness]
  rcases hq : p.required_data_freshness_seconds with _ | q
  · rfl
  · rfl

/-- A model-mismatch check over empty run metadata passes. -/
theorem check_model_mismatch_empty (p : PolicyRules) :
    (check_model_mismatch {} p).passed = true := rfl

/-- A frequency check over an empty run history passes unless
`max_actions_per_window` is set and negative (with `window_seconds`
also set). -/
theorem check_action_frequency_empty {p : PolicyRules} (now : Rat)
    (hp : p.max_actions_per_window = Option.none ∨
      ∀ m, p.max_actions_per_window = some m → 0 ≤ m) :
    (check_action_frequency [] p now).passed = true := by
  rcases hm : p.max_actions_per_window with _ | m
  · rw [check_action_frequency_unset [] now (Or.inl hm)]
  · rcases hw : p.window_seconds with _ | w
    · rw [check_action_frequency_unset [] now (Or.inr hw)]
    · have hm0 : 0 ≤ m := by
        rcases hp with hp | hp
        · rw [hp] at hm; cases hm
        · exact hp m hm
      simp only [check_action_frequency, hm, hw]
      have hc : ¬((List.countP
          (fun (run : HistEntry) => decide (run.timestamp.getD 0 ≥ now - w))
          ([] : List HistEntry) : Nat) : Rat) > m := by
        simp only [List.countP_nil, Nat.cast_zero]
        exact not_lt.mpr hm0
      rw [if_neg hc]

/-- The aggregate `passed` flag is the emptiness of the failing-check
filter; it is `true` exactly when every check passed. -/
theorem filter_failed_isEmpty_iff (rs : List RuleResult) :
    (rs.filter (fun r => !r.passed)).isEmpty = true ↔ ∀ r ∈ rs, r.passed = true := by
  rw [List.isEmpty_iff, List.filter_eq_nil_iff]
  constructor
  · intro h r hr
    have := h r hr
    simpa using this
  · intro h r hr
    simp [h r hr]

/-! Claim C1. -/

/-- C1: with the wall-clock-dependent rule parameters
(`max_actions_per_window`/`window_seconds` and
`required_data_freshness_seconds`) unset in the policy, the verdict of
`evaluate_policy` — evidence hash included — is independent of the
clock: two invocations on identical transcript, policy, run history
and run metadata return identical results. -/
theorem evaluate_policy_deterministic (t : List Entry) (p : PolicyRules)
    (h : List HistEntry) (m : RunMetadata) (now₁ now₂ : Rat)
    (hfreq : p.max_actions_per_window = Option.none)
    (hwin : p.window_seconds = Option.none)
    (hfresh : p.required_data_freshness_seconds = Option.none) :
    evaluate_policy t p h m now₁ = evaluate_policy t p h m now₂ := by
  unfold evaluate_policy
  rw [check_action_frequency_unset h now₁ (Or.inl hfreq),
      check_action_frequency_unset h now₂ (Or.inl hfreq),
      check_data_freshness_unset m now₁ hfresh,
      check_data_freshness_unset m now₂ hfresh]

/-- C1 witness: a concrete transcript, policy, history and metadata
with the wall-clock rules unset, evaluated at two different clock
values. -/
theorem evaluate_policy_deterministic_witness :
    (exC1p.max_actions_per_window = Option.none ∧
     exC1p.window_seconds = Option.none ∧
     exC1p.required_data_freshness_seconds = Option.none) ∧
    evaluate_policy exC1t exC1p [⟨some 5⟩] exC1m 0 =
      evaluate_policy exC1t exC1p [⟨some 5⟩] exC1m 12345 :=
  ⟨⟨rfl, rfl, rfl⟩,
   evaluate_policy_deterministic exC1t exC1p [⟨some 5⟩] exC1m 0 12345 rfl rfl rfl⟩

/-! Claim C2. -/

/-- C2: `evaluate_policy` runs exactly the six rule checks in the
fixed order (tool whitelist, value limit, prohibited target,
frequency, stale data, model mismatch); `passed` is true iff all six
checks pass; `failed_codes` is exactly the reason codes of the failing
checks in that order, without duplicates; and `evidence_hash` is the
SHA-256 hex digest of the sorted-key JSON serialization of the
`(code, passed, evidence)` array of the six results in order. -/
theorem evaluate_policy_aggregation (t : List Entry) (p : PolicyRules)
    (h : List HistEntry) (m : RunMetadata) (now : Rat) :
    (evaluate_policy t p h m now).results =
      [check_tool_whitelist t p, check_value_limits t p, check_prohibited_targets t p,
       check_action_frequency h p now, check_data_freshness m p now,
       check_model_mismatch m p] ∧
    (evaluate_policy t p h m now).results.map (fun r => r.reason_code) = ruleCodes ∧
    ((evaluate_policy t p h m now).passed = true ↔
      ∀ r ∈ (evaluate_policy t p h m now).results, r.passed = true) ∧
    (evaluate_policy t p h m now).failed_codes =
      ((evaluate_policy t p h m now).results.filter (fun r => !r.passed)).map
        (fun r => r.reason_code) ∧
    (evaluate_policy t p h m now).failed_codes.Nodup ∧
    (evaluate_policy t p h m now).evidence_hash =
      sha256Hex (strBytes (dumps (resultsJson (evaluate_policy t p h m now).results))) := by
  have hmap : (evaluate_policy t p h m now).results.map (fun r => r.reason_code) =
      ruleCodes := by
    simp only [evaluate_policy, List.map_cons, List.map_nil, check_tool_whitelist_code,
      check_value_limits_code, check_prohibited_targets_code, check_action_frequency_code,
      check_data_freshness_code, check_model_mismatch_code, ruleCodes]
  refine ⟨rfl, hmap, ?_, rfl, ?_, rfl⟩
  · exact filter_failed_isEmpty_iff _
  · have hsub : ((evaluate_policy t p h m now).failed_codes).Sublist
        ((evaluate_policy t p h m now).results.map (fun r => r.reason_code)) :=
      List.Sublist.map _ (List.filter_sublist _)
    rw [hmap] at hsub
    exact List.Nodup.sublist hsub (by decide)


/-! Claims C8 and C9. -/

theorem toolViolations_eq_nil_iff (t : List Entry) (allowed : List String) :
    toolViolations t allowed = [] ↔
      ∀ e ∈ t, e.role = some "tool_call" → e.tool.getD "" ≠ "" →
        e.tool.getD "" ∈ allowed := by
  unfold toolViolations
  rw [List.filterMap_eq_nil_iff]
  constructor
  · intro h e he hrole htool
    have h0 := h e he
    rw [if_pos hrole] at h0
    by_contra hmem
    rw [if_pos ⟨htool, hmem⟩] at h0
    exact Option.noConfusion h0
  · intro h e he
    by_cases hrole : e.role = some "tool_call"
    · rw [if_pos hrole, if_neg]
      rintro ⟨h1, h2⟩
      exact h2 (h e he hrole h1)
    · rw [if_neg hrole]

/-- C8 (amended): the tool-whitelist check passes iff every tool-call
entry with a non-empty tool name has that name in `allowed_tools`
(entries whose tool name is missing or empty are skipped); with
`allowed_tools` unset or empty it always passes. -/
theorem check_tool_whitelist_pass_iff (t : List Entry) (p : PolicyRules) :
    (check_tool_whitelist t p).passed = true ↔
      (p.allowed_tools.getD [] = [] ∨
       ∀ e ∈ t, e.role = some "tool_call" → e.tool.getD "" ≠ "" →
         e.tool.getD "" ∈ p.allowed_tools.getD []) := by
  by_cases hA : p.allowed_tools.getD [] = []
  · have h1 : (pySet (p.allowed_tools.getD [])).isEmpty = true := by rw [hA]; rfl
    simp only [check_tool_whitelist, h1, if_true]
    simp [hA]
  · have h1 : (pySet (p.allowed_tools.getD [])).isEmpty = false := by
      rcases hl : p.allowed_tools.getD [] with _ | ⟨x, xs⟩
      · exact absurd hl hA
      · simp [pySet]
    simp only [check_tool_whitelist, h1]
    rw [if_neg (by simp), or_iff_right hA]
    split
    · next hv =>
        have hnil := List.isEmpty_iff.mp hv
        have hall := (toolViolations_eq_nil_iff t (pySet (p.allowed_tools.getD []))).mp hnil
        constructor
        · intro _ e he hrole htool
          exact mem_pySet.mp (hall e he hrole htool)
        · intro _; rfl
    · next hv =>
        constructor
        · intro hfalse
          exact absurd hfalse (by simp)
        · intro hall
          exfalso
          apply hv
          rw [List.isEmpty_iff]
          exact (toolViolations_eq_nil_iff t (pySet (p.allowed_tools.getD []))).mpr
            (fun e he hrole htool => mem_pySet.mpr (hall e he hrole htool))

/-- C8 counterexample: a tool-call entry whose tool name is the empty
string is skipped by the whitelist check even though `""` is not in
the non-empty `allowed_tools`, so the check passes where the claim
requires it to fail. -/
theorem check_tool_whitelist_empty_tool_cex :
    exC8e.role = some "tool_call" ∧ exC8e.tool = some "" ∧
    exC8p.allowed_tools = some ["get_price"] ∧
    ¬ ("" ∈ (["get_price"] : List String)) ∧
    (check_tool_whitelist [exC8e] exC8p).passed = true :=
  ⟨rfl, rfl, rfl, by decide, rfl⟩

theorem valueViolations_eq_nil_iff (t : List Entry) (maxv : Rat) :
    valueViolations t maxv = [] ↔
      ∀ e ∈ t, e.role = some "tool_call" →
        ∀ q, pyFloat (entryRawValue e) = some q → q ≤ maxv := by
  unfold valueViolations
  rw [List.filterMap_eq_nil_iff]
  constructor
  · intro h e he hrole q hq
    have h0 := h e he
    rw [if_pos hrole, hq] at h0
    have h1 : (if q > maxv then
        some (PyVal.dict [("tool", optStr e.tool), ("value", PyVal.num q),
          ("max", PyVal.num maxv)])
      else Option.none) = Option.none := h0
    by_contra hgt
    rw [if_pos (lt_of_not_le hgt)] at h1
    exact Option.noConfusion h1
  · intro h e he
    by_cases hrole : e.role = some "tool_call"
    · rw [if_pos hrole]
      rcases hq : pyFloat (entryRawValue e) with _ | q
      · rfl
      · show (if q > maxv then
            some (PyVal.dict [("tool", optStr e.tool), ("value", PyVal.num q),
              ("max", PyVal.num maxv)])
          else Option.none) = Option.none
        rw [if_neg (not_lt.mpr (h e he hrole q hq))]
    · rw [if_neg hrole]

/-- C9 (amended): with `max_value_per_action` unset the value-limit
check always passes; with it set to `mv`, the check passes iff for
every tool-call entry the candidate value — the `value` argument if
present, else the `amount` argument, else a default of `0` — either
fails numeric conversion (and is skipped) or is at most `mv`.  In
particular an entry with no `value`/`amount` argument counts as value
`0` and is a violation exactly when `mv` is negative. -/
theorem check_value_limits_pass_iff (t : List Entry) (p : PolicyRules) :
    (p.max_value_per_action = Option.none → (check_value_limits t p).passed = true) ∧
    (∀ mv, p.max_value_per_action = some mv →
      ((check_value_limits t p).passed = true ↔
        ∀ e ∈ t, e.role = some "tool_call" →
          ∀ q, pyFloat (entryRawValue e) = some q → q ≤ mv)) := by
  constructor
  · intro hnone
    simp only [check_value_limits, hnone]
  · intro mv hmv
    simp only [check_value_limits, hmv]
    split
    · next hv =>
        have hall := (valueViolations_eq_nil_iff t mv).mp (List.isEmpty_iff.mp hv)
        exact iff_of_true rfl hall
    · next hv =>
        apply iff_of_false (by simp)
        intro hall
        apply hv
        rw [List.isEmpty_iff]
        exact (valueViolations_eq_nil_iff t mv).mpr hall

/-- C9 witness: the amended iff applied at a concrete transcript and a
concrete negative limit. -/
theorem check_value_limits_pass_iff_witness :
    exC9p.max_value_per_action = some (-1) ∧
    ((check_value_limits [exC9e] exC9p).passed = true ↔
      ∀ e ∈ [exC9e], e.role = some "tool_call" →
        ∀ q, pyFloat (entryRawValue e) = some q → q ≤ (-1 : Rat)) :=
  ⟨rfl, (check_value_limits_pass_iff [exC9e] exC9p).2 (-1) rfl⟩

/-- C9 counterexample: a tool-call entry with no `value`/`amount`
argument is not skipped — it defaults to value `0`, which violates a
negative limit, so the check fails where the claim says the entry can
never count as a violation. -/
theorem check_value_limits_default_zero_cex :
    exC9e.args.lookup "value" = Option.none ∧
    exC9e.args.lookup "amount" = Option.none ∧
    exC9e.role = some "tool_call" ∧
    (check_value_limits [exC9e] exC9p).passed = false :=
  ⟨rfl, rfl, rfl, rfl⟩


/-! Claim C4. -/

/-- C4: with `total_runs = 0` the scorer returns score `100` with all
breakdown penalty terms zero; with `total_runs > 0` the score is
`clamp(round(100 - min((violations/total_runs)*60, 60)
- min((paid_claims/total_runs)*30, 30)
+ min(recent_passing_runs*0.5, 10)), 0, 100)`; and for every counter
combination the score lies in `[0, 100]`. -/
theorem compute_score_spec (aid total viol paid recent : Nat) :
    (total = 0 → compute_score aid total viol paid recent =
      { agent_id := aid, score := 100, total_runs := 0, violations := 0,
        paid_claims := 0,
        breakdown := { base := 100, violation_penalty := 0, claim_penalty := 0,
                       recency_bonus := 0 } }) ∧
    (0 < total → (compute_score aid total viol paid recent).score =
      min 100 (max 0 (pyRound ((100 : Rat)
        - min (((viol : Rat) / (total : Rat)) * 60) 60
        - min (((paid : Rat) / (total : Rat)) * 30) 30
        + min ((recent : Rat) * (1 / 2)) 10)))) ∧
    0 ≤ (compute_score aid total viol paid recent).score ∧
    (compute_score aid total viol paid recent).score ≤ 100 := by
  refine ⟨?_, ?_, ?_, ?_⟩
  · intro h
    subst h
    rfl
  · intro h
    have hne : total ≠ 0 := Nat.pos_iff_ne_zero.mp h
    simp only [compute_score, if_neg hne, h, if_true, Int.cast_ofNat]
    rw [pyMinR_eq_min, pyMinR_eq_min, pyMinR_eq_min, pyMaxI_eq_max, pyMinI_eq_min]
  · by_cases h0 : total = 0
    · subst h0
      simp [compute_score]
    · simp only [compute_score, if_neg h0]
      rw [pyMinI_eq_min, pyMaxI_eq_max]
      exact le_min (by norm_num) (le_max_left 0 _)
  · by_cases h0 : total = 0
    · subst h0
      simp [compute_score]
    · simp only [compute_score, if_neg h0]
      rw [pyMinI_eq_min]
      exact min_le_left 100 _

/-- C4 witness: the formula applied at spec scenario 6 (20 runs, 3
violations, 1 paid claim, 4 recent clean runs). -/
theorem compute_score_spec_witness :
    0 < 20 ∧ (compute_score 1 20 3 1 4).score =
      min 100 (max 0 (pyRound ((100 : Rat)
        - min (((3 : Rat) / (20 : Rat)) * 60) 60
        - min (((1 : Rat) / (20 : Rat)) * 30) 30
        + min ((4 : Rat) * (1 / 2)) 10))) :=
  ⟨by decide, (compute_score_spec 1 20 3 1 4).2.1 (by decide)⟩

/-- Scenario 6 of the spec: the embedded scorer produces exactly the
documented score of 92. -/
theorem compute_score_scene_six : (compute_score 1 20 3 1 4).score = 92 := by
  have h2 : (compute_score 1 20 3 1 4).score =
      pyMinI 100 (pyMaxI 0 (pyRound ((100 : Rat) - 9 - 3 / 2 + 2))) := by
    simp only [compute_score]
    norm_num [pyMinR]
  have hval : ((100 : Rat) - 9 - 3 / 2 + 2) = 183 / 2 := by norm_num
  have hf : ⌊(183 / 2 : Rat)⌋ = 91 := by
    rw [Int.floor_eq_iff]
    norm_num
  have h3 : pyRound ((100 : Rat) - 9 - 3 / 2 + 2) = 92 := by
    rw [pyRound, hval, hf]
    rw [if_neg (by norm_num), if_neg (by norm_num), if_neg (by norm_num)]
    norm_num
  rw [h2, h3]
  rfl


/-! Claims C3, C7 and C10 (claim verifier). -/

theorem evaluate_policy_results_eq (t : List Entry) (p : PolicyRules)
    (h : List HistEntry) (m : RunMetadata) (now : Rat) :
    (evaluate_policy t p h m now).results =
      [check_tool_whitelist t p, check_value_limits t p, check_prohibited_targets t p,
       check_action_frequency h p now, check_data_freshness m p now,
       check_model_mismatch m p] := rfl

theorem evaluate_policy_failed_codes_eq (t : List Entry) (p : PolicyRules)
    (h : List HistEntry) (m : RunMetadata) (now : Rat) :
    (evaluate_policy t p h m now).failed_codes =
      ((evaluate_policy t p h m now).results.filter (fun r => !r.passed)).map
        (fun r => r.reason_code) := rfl

/-- Any member of `failed_codes` is the code of one of the six checks,
and that check failed. -/
theorem failed_codes_cases {t : List Entry} {p : PolicyRules} {h : List HistEntry}
    {m : RunMetadata} {now : Rat} {code : String}
    (hmem : code ∈ (evaluate_policy t p h m now).failed_codes) :
    ((check_tool_whitelist t p).passed = false ∧ code = toolWhitelistCode) ∨
    ((check_value_limits t p).passed = false ∧ code = valueLimitCode) ∨
    ((check_prohibited_targets t p).passed = false ∧ code = prohibitedTargetCode) ∨
    ((check_action_frequency h p now).passed = false ∧ code = frequencyCode) ∨
    ((check_data_freshness m p now).passed = false ∧ code = staleDataCode) ∨
    ((check_model_mismatch m p).passed = false ∧ code = modelMismatchCode) := by
  rw [evaluate_policy_failed_codes_eq, evaluate_policy_results_eq] at hmem
  obtain ⟨r, hr, hrc⟩ := List.mem_map.mp hmem
  have hrmem := (List.mem_filter.mp hr).1
  have hrpf : r.passed = false := by
    have := (List.mem_filter.mp hr).2
    simpa using this
  simp only [List.mem_cons, List.not_mem_nil, or_false] at hrmem
  rcases hrmem with rfl | rfl | rfl | rfl | rfl | rfl
  · exact Or.inl ⟨hrpf, hrc ▸ (check_tool_whitelist_code t p).symm ▸ rfl⟩
  · exact Or.inr (Or.inl ⟨hrpf, by rw [← hrc, check_value_limits_code]⟩)
  · exact Or.inr (Or.inr (Or.inl ⟨hrpf, by rw [← hrc, check_prohibited_targets_code]⟩))
  · exact Or.inr (Or.inr (Or.inr (Or.inl ⟨hrpf, by rw [← hrc, check_action_frequency_code]⟩)))
  · exact Or.inr (Or.inr (Or.inr (Or.inr (Or.inl ⟨hrpf, by rw [← hrc, check_data_freshness_code]⟩))))
  · exact Or.inr (Or.inr (Or.inr (Or.inr (Or.inr ⟨hrpf, by rw [← hrc, check_model_mismatch_code]⟩))))

/-- C3: for a submitted claim with a valid reason code whose run
exists, `verify_claim` re-evaluates the stored transcript against the
current active policy of the agent (empty rules when there is none) with
empty run history and metadata, and returns `valid = true`,
`approved` true exactly when the code of the claim is among the freshly
computed `failed_codes`, and the evidence hash of the fresh evaluation in
both outcomes. -/
theorem verify_claim_valid_code_spec (db : DBState) (cid : Nat) (now : Rat)
    (c : ClaimRow) (r : RunRow)
    (hc : findClaim db cid = some c)
    (hs : c.status = ClaimStatus.submitted)
    (hcode : c.reason_code ∈ VALID_REASON_CODES)
    (hr : findRunById db c.run_id = some r) :
    verify_claim db cid now =
      (let rules := ((latestActivePolicy db r.agent_id).map (fun p => p.rules)).getD {}
       let verdict := evaluate_policy (r.transcript.getD []) rules [] {} now
       { valid := true,
         approved := if c.reason_code ∈ verdict.failed_codes then true else false,
         reason := if c.reason_code ∈ verdict.failed_codes then
             "Violation confirmed: " ++ c.reason_code
           else "Claimed violation " ++ c.reason_code ++ " not found in re-evaluation",
         evidence_hash := verdict.evidence_hash }) := by
  simp only [verify_claim, hc, hr]
  rw [if_neg (by simp [hs]), if_neg (not_not_intro hcode)]
  by_cases hmem : c.reason_code ∈ (evaluate_policy (r.transcript.getD [])
      (((latestActivePolicy db r.agent_id).map (fun p => p.rules)).getD {}) [] {}
      now).failed_codes
  · rw [if_pos hmem]
    simp only [if_pos hmem]
  · rw [if_neg hmem]
    simp only [if_neg hmem]

/-- C3 witness: a concrete database in which the stored transcript
violates the whitelist of the active policy, verified at a concrete clock. -/
theorem verify_claim_valid_code_witness :
    (findClaim exDb3 1 = some exClaim3 ∧ exClaim3.status = ClaimStatus.submitted ∧
     exClaim3.reason_code ∈ VALID_REASON_CODES ∧ findRunById exDb3 1 = some exRun3) ∧
    verify_claim exDb3 1 7 =
      (let rules := ((latestActivePolicy exDb3 exRun3.agent_id).map
        (fun p => p.rules)).getD {}
       let verdict := evaluate_policy (exRun3.transcript.getD []) rules [] {} 7
       { valid := true,
         approved := if exClaim3.reason_code ∈ verdict.failed_codes then true else false,
         reason := if exClaim3.reason_code ∈ verdict.failed_codes then
             "Violation confirmed: " ++ exClaim3.reason_code
           else "Claimed violation " ++ exClaim3.reason_code ++
             " not found in re-evaluation",
         evidence_hash := verdict.evidence_hash }) :=
  ⟨⟨rfl, rfl, by decide, rfl⟩,
   verify_claim_valid_code_spec exDb3 1 7 exClaim3 exRun3 rfl rfl (by decide) rfl⟩

/-- C7 (amended): a submitted claim whose reason code lies outside the
six-code enumeration is rejected as verification-inconclusive —
`valid = true`, `approved = false`, empty evidence hash — with no
state mutation (the source performs only database reads on this path,
which the read-only embedding reflects). -/
theorem verify_claim_invalid_code_spec (db : DBState) (cid : Nat) (now : Rat)
    (c : ClaimRow)
    (hc : findClaim db cid = some c)
    (hs : c.status = ClaimStatus.submitted)
    (hcode : c.reason_code ∉ VALID_REASON_CODES) :
    verify_claim db cid now =
      { valid := true, approved := false,
        reason := "Invalid reason code: " ++ c.reason_code, evidence_hash := "" } := by
  simp only [verify_claim, hc]
  rw [if_neg (by simp [hs]), if_pos hcode]

/-- C7 witness: the amended statement applied to a concrete database
holding a submitted claim with reason code `NOT_A_CODE`. -/
theorem verify_claim_invalid_code_witness :
    (findClaim exDb7 1 = some exClaim7 ∧
     exClaim7.reason_code ∉ VALID_REASON_CODES) ∧
    verify_claim exDb7 1 0 =
      { valid := true, approved := false,
        reason := "Invalid reason code: " ++ exClaim7.reason_code,
        evidence_hash := "" } :=
  ⟨⟨rfl, by decide⟩, verify_claim_invalid_code_spec exDb7 1 0 exClaim7 rfl rfl (by decide)⟩

/-- C7 counterexample: on a submitted claim with an invalid reason
code the verifier returns `valid = true` (matching its own unit test),
not `valid = false` as the claim states. -/
theorem verify_claim_invalid_code_cex :
    exClaim7.status = ClaimStatus.submitted ∧
    exClaim7.reason_code ∉ VALID_REASON_CODES ∧
    ¬ ((verify_claim exDb7 1 0).valid = false) :=
  ⟨rfl, by decide, by decide⟩

/-- C10: the verifier invokes the policy engine with an empty run
history and empty run metadata, so a submitted claim whose reason code
is `STALE_DATA` or `MODEL_MISMATCH` — or `FREQUENCY_EXCEEDED` while
the `max_actions_per_window` of the active policy is unset or non-negative
— is never approved, whatever the stored transcript and policy rules. -/
theorem verify_claim_time_rules_never_approved (db : DBState) (cid : Nat) (now : Rat)
    (c : ClaimRow)
    (hc : findClaim db cid = some c)
    (hs : c.status = ClaimStatus.submitted)
    (hcode : c.reason_code = staleDataCode ∨ c.reason_code = modelMismatchCode ∨
      (c.reason_code = frequencyCode ∧ ∀ r, findRunById db c.run_id = some r →
        ((((latestActivePolicy db r.agent_id).map
            (fun (p : PolicyRow) => p.rules)).getD {}).max_actions_per_window =
              Option.none ∨
          ∀ mw, (((latestActivePolicy db r.agent_id).map
            (fun (p : PolicyRow) => p.rules)).getD {}).max_actions_per_window =
              some mw → 0 ≤ mw))) :
    (verify_claim db cid now).approved = false := by
  have hvalid : c.reason_code ∈ VALID_REASON_CODES := by
    rcases hcode with h1 | h1 | ⟨h1, _⟩ <;> rw [h1] <;> decide
  rcases hrun : findRunById db c.run_id with _ | r
  · simp only [verify_claim, hc, hrun]
    rw [if_neg (by simp [hs]), if_neg (not_not_intro hvalid)]
  · have hnot : c.reason_code ∉ (evaluate_policy (r.transcript.getD [])
        (((latestActivePolicy db r.agent_id).map
          (fun (p : PolicyRow) => p.rules)).getD {}) [] {} now).failed_codes := by
      intro hmem
      have hcases := failed_codes_cases hmem
      rcases hcode with h1 | h1 | ⟨h1, h2⟩ <;>
        rcases hcases with ⟨hpf, hcd⟩ | ⟨hpf, hcd⟩ | ⟨hpf, hcd⟩ | ⟨hpf, hcd⟩ |
          ⟨hpf, hcd⟩ | ⟨hpf, hcd⟩ <;>
        rw [h1] at hcd <;>
        first
        | exact absurd hcd (by decide)
        | exact Bool.noConfusion ((check_data_freshness_empty _ now).symm.trans hpf)
        | exact Bool.noConfusion ((check_model_mismatch_empty _).symm.trans hpf)
        | exact Bool.noConfusion
            ((check_action_frequency_empty now (h2 r hrun)).symm.trans hpf)
    simp only [verify_claim, hc, hrun]
    rw [if_neg (by simp [hs]), if_neg (not_not_intro hvalid), if_neg hnot]

/-- C10 witness: a database whose active policy has a data-freshness
rule and whose stored claim alleges `STALE_DATA`; verification still
rejects it. -/
theorem verify_claim_time_rules_witness :
    (findClaim exDb10 1 = some exClaim10 ∧
     exClaim10.status = ClaimStatus.submitted ∧
     exClaim10.reason_code = staleDataCode) ∧
    (verify_claim exDb10 1 999).approved = false :=
  ⟨⟨rfl, rfl, rfl⟩,
   verify_claim_time_rules_never_approved exDb10 1 999 exClaim10 rfl rfl (Or.inl rfl)⟩


/-! Claim C6. -/

/-- C6: submitting a claim against a run that already has a claim is
rejected with a conflict at the submission step itself — before any
verification runs, which in the source happens only after the claim
row is inserted — and the database state (in particular the existing
claim and the run) is left unchanged. -/
theorem submit_claim_conflict (db : DBState) (req : SubmitClaimRequest) (now : Rat)
    (run : RunRow)
    (hcode : req.reason_code ∈ VALID_REASON_CODES)
    (hrun : findRunByUuid db req.run_id = some run)
    (hdup : (db.claims.find? (fun cl => cl.run_id == run.id)).isSome = true) :
    submit_claim db req now = Except.error SubmitError.claimConflict ∧
    submit_claim_state db req now = db := by
  have h1 : submit_claim db req now = Except.error SubmitError.claimConflict := by
    simp only [submit_claim, hrun]
    rw [if_neg (not_not_intro hcode), if_pos hdup]
  refine ⟨h1, ?_⟩
  simp only [submit_claim_state, h1]

/-- C6 witness: a run that already carries a claim, hit with a second
well-formed submission. -/
theorem submit_claim_conflict_witness :
    (exReq6.reason_code ∈ VALID_REASON_CODES ∧
     findRunByUuid exDb6 exReq6.run_id = some exRun6 ∧
     (exDb6.claims.find? (fun cl => cl.run_id == exRun6.id)).isSome = true) ∧
    submit_claim exDb6 exReq6 0 = Except.error SubmitError.claimConflict ∧
    submit_claim_state exDb6 exReq6 0 = exDb6 :=
  ⟨⟨by decide, rfl, rfl⟩,
   submit_claim_conflict exDb6 exReq6 0 exRun6 (by decide) rfl rfl⟩

/-! Claim C5. -/

theorem activateRow_agent_id (pid aid : Nat) (p : PolicyRow) :
    (activateRow pid aid p).agent_id = p.agent_id := by
  unfold activateRow
  split
  · rfl
  · split <;> rfl

theorem activateRow_of_id_eq (pid aid : Nat) (p : PolicyRow) (h : p.id = pid) :
    activateRow pid aid p = { p with status := PolicyStatus.active } := by
  unfold activateRow
  rw [if_pos (by simp [h])]

theorem activateRow_active_of_id_ne (pid aid : Nat) (p : PolicyRow) (h : p.id ≠ pid)
    (hact : (activateRow pid aid p).status = PolicyStatus.active) :
    activateRow pid aid p = p ∧ p.status = PolicyStatus.active ∧ p.agent_id ≠ aid := by
  unfold activateRow at hact ⊢
  rw [if_neg (by simp [h])] at hact ⊢
  by_cases hcond : (p.agent_id == aid && p.status == PolicyStatus.active) = true
  · rw [if_pos hcond] at hact
    exact PolicyStatus.noConfusion hact
  · rw [if_neg hcond] at hact ⊢
    refine ⟨rfl, hact, ?_⟩
    intro hagent
    exact hcond (by simp [hagent, hact])

/-- C5 (amended): activating a policy deprecates all other active
policies of the agent in the same commit, so activation preserves the
at-most-one-active-per-agent invariant (given distinct primary keys);
registration, by contrast, does not preserve it — see the
counterexample. -/
theorem activate_policy_preserves_invariant (db : DBState) (op pid aid : Nat)
    (db2 : DBState)
    (hids : (db.policies.map (fun p => p.id)).Nodup)
    (hinv : atMostOneActive db.policies)
    (hok : activate_policy db op pid aid = Except.ok db2) :
    atMostOneActive db2.policies := by
  rcases hpol : findPolicy db pid with _ | pol
  · simp only [activate_policy, hpol] at hok
    exact Except.noConfusion hok
  · simp only [activate_policy, hpol] at hok
    by_cases hag : pol.agent_id ≠ aid
    · rw [if_pos hag] at hok
      exact Except.noConfusion hok
    · rw [if_neg hag] at hok
      push_neg at hag
      rcases hagf : findAgent db aid with _ | agent
      · simp only [hagf] at hok
        exact Except.noConfusion hok
      · simp only [hagf] at hok
        by_cases hop : agent.operator_id ≠ op
        · rw [if_pos hop] at hok
          exact Except.noConfusion hok
        · rw [if_neg hop] at hok
          injection hok with hok
          subst hok
          have hpolmem : pol ∈ db.policies := List.mem_of_find?_eq_some hpol
          have hpid : pol.id = pid := by
            have := List.find?_some hpol
            simpa using this
          have hinj := List.inj_on_of_nodup_map hids
          have hne : db.policies.Pairwise (fun a b => ¬(a.id = b.id)) :=
            List.pairwise_map.mp hids
          have hcomb := hinv.and hne
          rw [atMostOneActive, List.pairwise_map]
          refine hcomb.imp_of_mem ?_
          intro a b ha hb hab
          obtain ⟨hS, hneid⟩ := hab
          rintro ⟨hagEq, haAct, hbAct⟩
          by_cases hA : a.id = pid <;> by_cases hB : b.id = pid
          · exact hneid (hA.trans hB.symm)
          · have haeq : a = pol := hinj ha hpolmem (hA.trans hpid.symm)
            obtain ⟨hfb, hbact, hbag⟩ := activateRow_active_of_id_ne pid aid b hB hbAct
            apply hbag
            rw [hfb, activateRow_agent_id] at hagEq
            rw [← hagEq, haeq, hag]
          · have hbeq : b = pol := hinj hb hpolmem (hB.trans hpid.symm)
            obtain ⟨hfa, haact, haag⟩ := activateRow_active_of_id_ne pid aid a hA haAct
            apply haag
            rw [hfa, activateRow_agent_id] at hagEq
            rw [hagEq, hbeq, hag]
          · obtain ⟨hfa, haact, _⟩ := activateRow_active_of_id_ne pid aid a hA haAct
            obtain ⟨hfb, hbact, _⟩ := activateRow_active_of_id_ne pid aid b hB hbAct
            apply hS
            rw [hfa, hfb] at hagEq
            exact ⟨hagEq, haact, hbact⟩

/-- C5 witness: over a database holding one active and one deprecated
policy of agent 1, activating the deprecated one keeps the invariant. -/
theorem activate_policy_preserves_invariant_witness :
    ((exDb5two.policies.map (fun p => p.id)).Nodup ∧
     atMostOneActive exDb5two.policies ∧
     activate_policy exDb5two 1 2 1 = Except.ok exDb5act) ∧
    atMostOneActive exDb5act.policies :=
  ⟨⟨by decide, by unfold atMostOneActive; decide, rfl⟩,
   activate_policy_preserves_invariant exDb5two 1 2 1 exDb5act (by decide)
     (by unfold atMostOneActive; decide) rfl⟩

/-- C5 counterexample: `register_policy` creates the new policy with
`active` status without deprecating the existing active
policy of the agent, so after registering over a one-active-policy state the agent
has two active policies — registration does not preserve the
invariant the claim asserts. -/
theorem register_policy_second_active_cex :
    atMostOneActive exDb5.policies ∧ ¬ atMostOneActive exDb5reg.policies := by
  constructor
  · unfold atMostOneActive
    decide
  · unfold atMostOneActive
    decide

end AgentBond
